import Mathlib

/-!
# TS_STL synchronization core — shallow embedding

This file embeds the synchronization core of the TS_STL repository
(`ts_stl_base.hpp`): the `LockPolicy` enumeration, the `SpinLock` busy-wait
primitive, the type-erased `UnifiedLockGuard`, the `LockGuard` lock holder,
and the `container_mixin` CRTP base, and proves the specified properties.

Modelling conventions:
* The spin primitive's atomic flag is a `Bool` (`true` = set/locked);
  `test_and_set` returns the old value and leaves the flag set.
* Acquisitions and releases are recorded as explicit `LockEvent`s, so that a
  function's synchronization side effects are part of its result.  A guard's
  destructor is the pure function `dtorEvents` giving the release events it
  performs.
* A thrown `std::logic_error` is an `Except.error` carrying a `LogicError`
  with the thrown message.
* Template-parameter dispatch (`if constexpr` on the policy) becomes an
  ordinary match on `LockPolicy`, mirroring the source's branch order.
-/

namespace TsStl

/-- `ts_stl::LockPolicy`: Mutex, SpinLock, LockFree, and (C++17 and later,
which the header statically requires) ReadWrite. -/
inductive LockPolicy
  | Mutex
  | SpinLock
  | LockFree
  | ReadWrite
deriving DecidableEq

/-- Synchronization events performed on the concrete primitives. -/
inductive LockEvent
  | spinLockAcq
  | spinUnlock
  | mutexAcq
  | mutexUnlock
  | rwUniqueAcq
  | rwUniqueUnlock
  | rwSharedAcq
  | rwSharedUnlock
deriving DecidableEq

/-- A thrown `std::logic_error`, carrying its message. -/
structure LogicError where
  msg : String
deriving DecidableEq

namespace SpinLock

/-- `flag_.test_and_set`: returns the previous flag value and sets the flag.
The state is the flag (`true` = set). -/
def test_and_set (flag : Bool) : Bool × Bool :=
  (flag, true)

/-- `SpinLock::try_lock()`: `return !flag_.test_and_set(...)`. Returns
(success, new flag state). -/
def try_lock (flag : Bool) : Bool × Bool :=
  let r := test_and_set flag
  (!r.1, r.2)

/-- `SpinLock::lock()`: `while (flag_.test_and_set(...)) { pause }`.
Modelled with fuel counting loop iterations; `none` means the loop has not
yet terminated after `fuel` attempts (it busy-waits). Returns the flag state
after the acquiring transition. -/
def lockLoop : Nat → Bool → Option Bool
  | 0, _ => none
  | Nat.succ n, flag =>
    let r := test_and_set flag
    if r.1 then lockLoop n r.2 else some r.2

/-- `SpinLock::unlock()`: `flag_.clear(...)`. -/
def unlock (_flag : Bool) : Bool :=
  false

end SpinLock

/-- `ts_stl::UnifiedLockGuard`'s data members:
`spinlock_` (whether the pointer is non-null), `lock_type_`, and whether the
`mutex_lock_` / `rw_lock_` members currently own their mutex. -/
structure UnifiedLockGuard where
  spinlock : Bool
  lock_type : Int
  mutex_lock_owns : Bool
  rw_lock_owns : Bool
deriving DecidableEq

namespace UnifiedLockGuard

/-- `UnifiedLockGuard(std::unique_lock<std::mutex>&&)`: wraps an
already-acquired mutex lock; tag 0. Construction itself performs no event. -/
def ofMutexUniqueLock : UnifiedLockGuard × List LockEvent :=
  (⟨false, 0, true, false⟩, [])

/-- `UnifiedLockGuard(SpinLock&)`: stores the pointer, tag 1, and immediately
calls `spinlock_->lock()`. -/
def ofSpin : UnifiedLockGuard × List LockEvent :=
  (⟨true, 1, false, false⟩, [LockEvent.spinLockAcq])

/-- `UnifiedLockGuard(NullLockGuard&&)`: tag 3, acquires nothing. -/
def ofNull : UnifiedLockGuard × List LockEvent :=
  (⟨false, 3, false, false⟩, [])

/-- `UnifiedLockGuard(std::unique_lock<std::shared_mutex>&&)`: wraps an
already-acquired writer-mode shared-mutex lock; tag 2. -/
def ofRwUniqueLock : UnifiedLockGuard × List LockEvent :=
  (⟨false, 2, false, true⟩, [])

/-- `~UnifiedLockGuard()`: unlocks the spin primitive iff
`lock_type_ == 1 && spinlock_`; the `mutex_lock_` / `rw_lock_` member
destructors then unlock iff they own their mutex. -/
def dtorEvents (g : UnifiedLockGuard) : List LockEvent :=
  (if g.lock_type = 1 ∧ g.spinlock = true then [LockEvent.spinUnlock] else [])
    ++ (if g.mutex_lock_owns = true then [LockEvent.mutexUnlock] else [])
    ++ (if g.rw_lock_owns = true then [LockEvent.rwUniqueUnlock] else [])

/-- Move constructor: copies `spinlock_` and `lock_type_`, move-assigns the
native lock member selected by the tag, then nulls the source's pointer and
sets its tag to -1. Returns (destination, source after the move). -/
def moveCtor (other : UnifiedLockGuard) : UnifiedLockGuard × UnifiedLockGuard :=
  let dest : UnifiedLockGuard :=
    { spinlock := other.spinlock
      lock_type := other.lock_type
      mutex_lock_owns := if other.lock_type = 0 then other.mutex_lock_owns else false
      rw_lock_owns := if other.lock_type = 2 then other.rw_lock_owns else false }
  let src : UnifiedLockGuard :=
    { spinlock := false
      lock_type := -1
      mutex_lock_owns := if other.lock_type = 0 then false else other.mutex_lock_owns
      rw_lock_owns := if other.lock_type = 2 then false else other.rw_lock_owns }
  (dest, src)

/-- Move assignment (the `this != &other` path): first explicitly runs
`this->~UnifiedLockGuard()` (releasing the destination's active payload),
then takes over the source's payload exactly as the move constructor does.
Returns (destination, source after the move, events of the explicit
destructor call). -/
def moveAssign (this other : UnifiedLockGuard) :
    UnifiedLockGuard × UnifiedLockGuard × List LockEvent :=
  let p := moveCtor other
  (p.1, p.2, this.dtorEvents)

/-- Reachability invariant of the C++ object: the spin pointer is non-null
exactly in the Spin-tagged state, and a native lock member owns its mutex
only under its own tag. Established by all four constructors and preserved
by moves. -/
def WF (g : UnifiedLockGuard) : Prop :=
  (g.spinlock = true ↔ g.lock_type = 1)
    ∧ (g.mutex_lock_owns = true → g.lock_type = 0)
    ∧ (g.rw_lock_owns = true → g.lock_type = 2)

instance (g : UnifiedLockGuard) : Decidable g.WF := by
  unfold WF; infer_instance

/-- Move a guard through `n` successive move constructions; returns the final
holder and the list of moved-from sources, in order. -/
def moveChainSources : Nat → UnifiedLockGuard → UnifiedLockGuard × List UnifiedLockGuard
  | 0, g => (g, [])
  | Nat.succ n, g =>
    let p := moveCtor g
    let q := moveChainSources n p.1
    (q.1, p.2 :: q.2)

/-- All release events over a whole lifetime: move the guard `n` times, then
destroy the final holder and every moved-from source. -/
def lifetimeReleases (n : Nat) (g : UnifiedLockGuard) : List LockEvent :=
  let p := moveChainSources n g
  p.1.dtorEvents ++ (p.2.map dtorEvents).flatten

end UnifiedLockGuard

/-- `ts_stl::LockGuard`'s data members: the stored policy and which of the
three `unique_ptr` primitive slots is allocated (non-null). -/
structure LockGuard where
  policy_ : LockPolicy
  mutex_ : Bool
  spinlock_ : Bool
  shared_mutex_ : Bool
deriving DecidableEq

namespace LockGuard

/-- `LockGuard::LockGuard(LockPolicy)`: allocates the one primitive matching
the policy; for LockFree the final `else` allocates nothing. -/
def construct (policy : LockPolicy) : LockGuard :=
  if policy = LockPolicy.Mutex then
    ⟨policy, true, false, false⟩
  else if policy = LockPolicy.SpinLock then
    ⟨policy, false, true, false⟩
  else if policy = LockPolicy.ReadWrite then
    ⟨policy, false, false, true⟩
  else
    ⟨policy, false, false, false⟩

/-- `LockGuard::policy()`. -/
def policy (lg : LockGuard) : LockPolicy :=
  lg.policy_

/-- `LockGuard::write_lock()`: Mutex constructs (and thereby locks) a
`std::unique_lock<std::mutex>` and wraps it; SpinLock wraps the spin
primitive (the `UnifiedLockGuard` constructor spins to acquire it); LockFree
wraps a `NullLockGuard`; otherwise (ReadWrite) throws `std::logic_error`. -/
def write_lock (lg : LockGuard) : Except LogicError (UnifiedLockGuard × List LockEvent) :=
  if lg.policy_ = LockPolicy.Mutex then
    let r := UnifiedLockGuard.ofMutexUniqueLock
    Except.ok (r.1, LockEvent.mutexAcq :: r.2)
  else if lg.policy_ = LockPolicy.SpinLock then
    Except.ok UnifiedLockGuard.ofSpin
  else if lg.policy_ = LockPolicy.LockFree then
    Except.ok UnifiedLockGuard.ofNull
  else
    Except.error ⟨"Cannot acquire write_lock on ReadWrite policy"⟩

/-- `LockGuard::lock()`: `return write_lock();`. -/
def lock (lg : LockGuard) : Except LogicError (UnifiedLockGuard × List LockEvent) :=
  lg.write_lock

/-- The mode of a native lock on the shared (reader/writer) mutex. -/
inductive RwMode
  | sharedMode
  | uniqueMode
deriving DecidableEq

/-- `LockGuard::read_lock()`: under ReadWrite returns an acquired
`std::shared_lock<std::shared_mutex>`; otherwise throws `std::logic_error`. -/
def read_lock (lg : LockGuard) : Except LogicError (RwMode × List LockEvent) :=
  if lg.policy_ = LockPolicy.ReadWrite then
    Except.ok (RwMode.sharedMode, [LockEvent.rwSharedAcq])
  else
    Except.error ⟨"Cannot acquire read_lock on Mutex policy"⟩

/-- `LockGuard::unique_lock_rw()`: under ReadWrite returns an acquired
writer-mode `std::unique_lock<std::shared_mutex>`; otherwise throws
`std::logic_error`. -/
def unique_lock_rw (lg : LockGuard) : Except LogicError (RwMode × List LockEvent) :=
  if lg.policy_ = LockPolicy.ReadWrite then
    Except.ok (RwMode.uniqueMode, [LockEvent.rwUniqueAcq])
  else
    Except.error ⟨"Cannot acquire unique_lock_rw on Mutex policy"⟩

end LockGuard

/-- The guard value an acquisition entry point of the mixin returns: the
`auto` return type is, per policy instantiation, either a
`UnifiedLockGuard`, a writer-mode `std::unique_lock<std::shared_mutex>`, or
a `std::shared_lock<std::shared_mutex>`. -/
inductive AcquiredGuard
  | unified (g : UnifiedLockGuard)
  | rwUnique
  | rwShared
deriving DecidableEq

namespace AcquiredGuard

/-- The release events performed when the returned guard is destroyed at the
end of its scope. -/
def releaseEvents : AcquiredGuard → List LockEvent
  | unified g => g.dtorEvents
  | rwUnique => [LockEvent.rwUniqueUnlock]
  | rwShared => [LockEvent.rwSharedUnlock]

end AcquiredGuard

/-- `ts_stl::container_mixin<Derived, T, Policy>`'s state: the `lock_guard_`
member and the derived adapter's underlying container `data_`, modelled as
the list of its elements in iteration order. -/
structure container_mixin (T : Type) where
  lock_guard_ : LockGuard
  data_ : List T

namespace container_mixin

/-- `container_mixin::container_mixin()`: constructs `lock_guard_` with the
template policy; the derived container starts empty. -/
def init (T : Type) (Policy : LockPolicy) : container_mixin T :=
  ⟨LockGuard.construct Policy, []⟩

/-- `container_mixin::acquire_write_lock()`: `if constexpr` dispatch on the
template `Policy` — Mutex, SpinLock and LockFree all call
`lock_guard_.lock()`; ReadWrite calls `lock_guard_.unique_lock_rw()`. -/
def acquire_write_lock (Policy : LockPolicy) (lg : LockGuard) :
    Except LogicError (AcquiredGuard × List LockEvent) :=
  match Policy with
  | LockPolicy.Mutex =>
      (lg.lock).map (fun r => (AcquiredGuard.unified r.1, r.2))
  | LockPolicy.SpinLock =>
      (lg.lock).map (fun r => (AcquiredGuard.unified r.1, r.2))
  | LockPolicy.LockFree =>
      (lg.lock).map (fun r => (AcquiredGuard.unified r.1, r.2))
  | LockPolicy.ReadWrite =>
      (lg.unique_lock_rw).map (fun r => (AcquiredGuard.rwUnique, r.2))

/-- `container_mixin::acquire_read_lock()`: `if constexpr` dispatch —
LockFree and SpinLock call `lock_guard_.lock()`; ReadWrite calls
`lock_guard_.read_lock()`; the final `else` (Mutex) calls
`lock_guard_.lock()`. -/
def acquire_read_lock (Policy : LockPolicy) (lg : LockGuard) :
    Except LogicError (AcquiredGuard × List LockEvent) :=
  match Policy with
  | LockPolicy.LockFree =>
      (lg.lock).map (fun r => (AcquiredGuard.unified r.1, r.2))
  | LockPolicy.SpinLock =>
      (lg.lock).map (fun r => (AcquiredGuard.unified r.1, r.2))
  | LockPolicy.ReadWrite =>
      (lg.read_lock).map (fun r => (AcquiredGuard.rwShared, r.2))
  | LockPolicy.Mutex =>
      (lg.lock).map (fun r => (AcquiredGuard.unified r.1, r.2))

/-- `container_mixin::unsafe_size()`: `return derived().data_.size();` — no
lock events, state unchanged. Returns (result, events, post-state). -/
def unsafe_size (m : container_mixin T) : Nat × List LockEvent × container_mixin T :=
  (m.data_.length, [], m)

/-- `container_mixin::unsafe_empty()`: `return derived().data_.empty();`. -/
def unsafe_empty (m : container_mixin T) : Bool × List LockEvent × container_mixin T :=
  (m.data_.isEmpty, [], m)

/-- `container_mixin::unsafe_ref()`: returns (a reference to) the underlying
container itself — no lock events, state unchanged. -/
def unsafe_ref (m : container_mixin T) : List T × List LockEvent × container_mixin T :=
  (m.data_, [], m)

/-- `container_mixin::contains(value)`: acquires the read lock, runs
`std::find(begin, end, value) != end`, and releases the guard on return.
Returns (result, events in order, post-state). -/
def contains [DecidableEq T] (Policy : LockPolicy) (m : container_mixin T) (value : T) :
    Except LogicError (Bool × List LockEvent × container_mixin T) :=
  (acquire_read_lock Policy m.lock_guard_).map (fun r =>
    ((m.data_.find? (fun x => decide (x = value))).isSome,
      r.2 ++ r.1.releaseEvents, m))

/-- `container_mixin::count(value)`: acquires the read lock, runs
`std::count(begin, end, value)`, and releases the guard on return. -/
def count [DecidableEq T] (Policy : LockPolicy) (m : container_mixin T) (value : T) :
    Except LogicError (Nat × List LockEvent × container_mixin T) :=
  (acquire_read_lock Policy m.lock_guard_).map (fun r =>
    (m.data_.countP (fun x => decide (x = value)),
      r.2 ++ r.1.releaseEvents, m))

/-- `container_mixin::copy()`: acquires the read lock, returns a copy of
`derived().data_`, and releases the guard on return. -/
def copy (Policy : LockPolicy) (m : container_mixin T) :
    Except LogicError (List T × List LockEvent × container_mixin T) :=
  (acquire_read_lock Policy m.lock_guard_).map (fun r =>
    (m.data_, r.2 ++ r.1.releaseEvents, m))

end container_mixin

/-! ## Helper lemmas -/

theorem UnifiedLockGuard.moveCtor_src_fields (g : UnifiedLockGuard) :
    (UnifiedLockGuard.moveCtor g).2.lock_type = -1
      ∧ (UnifiedLockGuard.moveCtor g).2.spinlock = false := by
  constructor <;> rfl

theorem UnifiedLockGuard.moveCtor_src_dtorEvents (g : UnifiedLockGuard) (h : g.WF) :
    (UnifiedLockGuard.moveCtor g).2.dtorEvents = [] := by
  rcases g with ⟨sp, lt, mo, ro⟩
  obtain ⟨h1, h2, h3⟩ := h
  simp only [UnifiedLockGuard.moveCtor, UnifiedLockGuard.dtorEvents] at *
  cases mo <;> cases ro <;> simp_all

theorem UnifiedLockGuard.moveCtor_dest_dtorEvents (g : UnifiedLockGuard) (h : g.WF) :
    (UnifiedLockGuard.moveCtor g).1.dtorEvents = g.dtorEvents := by
  rcases g with ⟨sp, lt, mo, ro⟩
  obtain ⟨h1, h2, h3⟩ := h
  simp only [UnifiedLockGuard.moveCtor, UnifiedLockGuard.dtorEvents] at *
  cases mo <;> cases ro <;> simp_all

theorem UnifiedLockGuard.moveCtor_dest_WF (g : UnifiedLockGuard) (h : g.WF) :
    (UnifiedLockGuard.moveCtor g).1.WF := by
  rcases g with ⟨sp, lt, mo, ro⟩
  obtain ⟨h1, h2, h3⟩ := h
  simp only [UnifiedLockGuard.moveCtor, UnifiedLockGuard.WF] at *
  cases mo <;> cases ro <;> simp_all

theorem UnifiedLockGuard.moveCtor_src_WF (g : UnifiedLockGuard) (h : g.WF) :
    (UnifiedLockGuard.moveCtor g).2.WF := by
  rcases g with ⟨sp, lt, mo, ro⟩
  obtain ⟨h1, h2, h3⟩ := h
  simp only [UnifiedLockGuard.moveCtor, UnifiedLockGuard.WF] at *
  cases mo <;> cases ro <;> simp_all

theorem UnifiedLockGuard.lifetimeReleases_eq_dtorEvents :
    ∀ (n : Nat) (g : UnifiedLockGuard), g.WF →
      UnifiedLockGuard.lifetimeReleases n g = g.dtorEvents
  | 0, g, _ => by
    simp [UnifiedLockGuard.lifetimeReleases, UnifiedLockGuard.moveChainSources]
  | Nat.succ n, g, h => by
    have ih := UnifiedLockGuard.lifetimeReleases_eq_dtorEvents n
      (UnifiedLockGuard.moveCtor g).1 (UnifiedLockGuard.moveCtor_dest_WF g h)
    simp only [UnifiedLockGuard.lifetimeReleases, UnifiedLockGuard.moveChainSources,
      List.map_cons, List.flatten_cons] at ih ⊢
    rw [UnifiedLockGuard.moveCtor_src_dtorEvents g h, List.nil_append, ih,
      UnifiedLockGuard.moveCtor_dest_dtorEvents g h]

theorem UnifiedLockGuard.spinUnlock_mem_dtorEvents (g : UnifiedLockGuard) :
    LockEvent.spinUnlock ∈ g.dtorEvents ↔ (g.lock_type = 1 ∧ g.spinlock = true) := by
  rcases g with ⟨sp, lt, mo, ro⟩
  simp only [UnifiedLockGuard.dtorEvents]
  cases sp <;> cases mo <;> cases ro <;> by_cases hlt : lt = 1 <;> simp_all

theorem UnifiedLockGuard.dtorEvents_of_moved_from (g : UnifiedLockGuard) (h : g.WF)
    (hlt : g.lock_type = -1) : g.dtorEvents = [] := by
  rcases g with ⟨sp, lt, mo, ro⟩
  obtain ⟨h1, h2, h3⟩ := h
  simp only [UnifiedLockGuard.dtorEvents] at *
  cases mo <;> cases ro <;> simp_all

theorem LockGuard.construct_policy (p : LockPolicy) :
    (LockGuard.construct p).policy_ = p := by
  cases p <;> rfl

theorem container_mixin.acquire_read_lock_construct_ok (p : LockPolicy) :
    ∃ g ev, container_mixin.acquire_read_lock p (LockGuard.construct p)
      = Except.ok (g, ev) := by
  cases p <;> exact ⟨_, _, rfl⟩

/-! ## Claim theorems -/

/-- C1: `acquire_write_lock()` routes per policy — Mutex and SpinLock return
the lock holder's `write_lock()`/`lock()` result (an acquired mutex guard,
respectively a guard that has acquired the spin primitive); ReadWrite
returns the `unique_lock_rw()` writer-mode shared-mutex lock; LockFree
returns an empty guard whose construction acquires nothing. -/
theorem C1_acquire_write_lock_routing :
    (∀ lg : LockGuard, container_mixin.acquire_write_lock LockPolicy.Mutex lg
        = (lg.write_lock).map (fun r => (AcquiredGuard.unified r.1, r.2)))
    ∧ (∀ lg : LockGuard, container_mixin.acquire_write_lock LockPolicy.SpinLock lg
        = (lg.write_lock).map (fun r => (AcquiredGuard.unified r.1, r.2)))
    ∧ (∀ lg : LockGuard, container_mixin.acquire_write_lock LockPolicy.ReadWrite lg
        = (lg.unique_lock_rw).map (fun r => (AcquiredGuard.rwUnique, r.2)))
    ∧ container_mixin.acquire_write_lock LockPolicy.Mutex
        (LockGuard.construct LockPolicy.Mutex)
        = Except.ok (AcquiredGuard.unified ⟨false, 0, true, false⟩, [LockEvent.mutexAcq])
    ∧ container_mixin.acquire_write_lock LockPolicy.SpinLock
        (LockGuard.construct LockPolicy.SpinLock)
        = Except.ok (AcquiredGuard.unified ⟨true, 1, false, false⟩, [LockEvent.spinLockAcq])
    ∧ container_mixin.acquire_write_lock LockPolicy.ReadWrite
        (LockGuard.construct LockPolicy.ReadWrite)
        = Except.ok (AcquiredGuard.rwUnique, [LockEvent.rwUniqueAcq])
    ∧ container_mixin.acquire_write_lock LockPolicy.LockFree
        (LockGuard.construct LockPolicy.LockFree)
        = Except.ok (AcquiredGuard.unified UnifiedLockGuard.ofNull.1, [])
    ∧ UnifiedLockGuard.ofNull.2 = []
    ∧ UnifiedLockGuard.ofNull.1.dtorEvents = [] :=
  ⟨fun _ => rfl, fun _ => rfl, fun _ => rfl, rfl, rfl, rfl, rfl, rfl, rfl⟩

/-- C2: a `UnifiedLockGuard` releases its resource exactly once through any
chain of moves: each move (construction or assignment) transfers the active
payload and tag to the destination and leaves the source in the
tag -1 / null state with a no-op destructor, so after `n` moves the total
release trace of the final holder plus all moved-from sources equals the
single release of the original guard — concretely, a spin guard moved any
number of times unlocks the spin primitive exactly once. -/
theorem C2_exactly_once_release (n : Nat) (g t : UnifiedLockGuard)
    (hg : g.WF) :
    ((UnifiedLockGuard.moveCtor g).2.lock_type = -1
      ∧ (UnifiedLockGuard.moveCtor g).2.dtorEvents = []
      ∧ (UnifiedLockGuard.moveCtor g).1.dtorEvents = g.dtorEvents)
    ∧ ((UnifiedLockGuard.moveAssign t g).2.1.lock_type = -1
      ∧ (UnifiedLockGuard.moveAssign t g).2.1.dtorEvents = []
      ∧ (UnifiedLockGuard.moveAssign t g).1.dtorEvents = g.dtorEvents)
    ∧ UnifiedLockGuard.lifetimeReleases n g = g.dtorEvents
    ∧ UnifiedLockGuard.lifetimeReleases n (UnifiedLockGuard.ofSpin).1
        = [LockEvent.spinUnlock]
    ∧ (UnifiedLockGuard.lifetimeReleases n
        (UnifiedLockGuard.ofSpin).1).count LockEvent.spinUnlock = 1 := by
  have hspin : (UnifiedLockGuard.ofSpin).1.WF := by decide
  have hlife := UnifiedLockGuard.lifetimeReleases_eq_dtorEvents n
    (UnifiedLockGuard.ofSpin).1 hspin
  refine ⟨⟨rfl, UnifiedLockGuard.moveCtor_src_dtorEvents g hg,
      UnifiedLockGuard.moveCtor_dest_dtorEvents g hg⟩,
    ⟨rfl, UnifiedLockGuard.moveCtor_src_dtorEvents g hg,
      UnifiedLockGuard.moveCtor_dest_dtorEvents g hg⟩,
    UnifiedLockGuard.lifetimeReleases_eq_dtorEvents n g hg, ?_, ?_⟩
  · rw [hlife]; rfl
  · rw [hlife]; rfl

/-- C2 witness: a freshly constructed spin guard moved three times releases
the spin primitive exactly once. -/
theorem C2_exactly_once_release_witness :
    UnifiedLockGuard.lifetimeReleases 3 (UnifiedLockGuard.ofSpin).1
      = [LockEvent.spinUnlock] :=
  (C2_exactly_once_release 3 (UnifiedLockGuard.ofSpin).1 (UnifiedLockGuard.ofSpin).1
    (by decide)).2.2.2.1

/-- C3: `read_lock()` and `unique_lock_rw()` throw a `std::logic_error` under
every policy other than ReadWrite, and under ReadWrite they return a
shared-mode, respectively writer-mode, lock on the shared mutex. -/
theorem C3_read_side_policy_errors (p : LockPolicy) (hp : p ≠ LockPolicy.ReadWrite) :
    (∃ e : LogicError, (LockGuard.construct p).read_lock = Except.error e)
    ∧ (∃ e : LogicError, (LockGuard.construct p).unique_lock_rw = Except.error e)
    ∧ (LockGuard.construct LockPolicy.ReadWrite).read_lock
        = Except.ok (LockGuard.RwMode.sharedMode, [LockEvent.rwSharedAcq])
    ∧ (LockGuard.construct LockPolicy.ReadWrite).unique_lock_rw
        = Except.ok (LockGuard.RwMode.uniqueMode, [LockEvent.rwUniqueAcq]) := by
  refine ⟨⟨⟨"Cannot acquire read_lock on Mutex policy"⟩, ?_⟩,
    ⟨⟨"Cannot acquire unique_lock_rw on Mutex policy"⟩, ?_⟩, rfl, rfl⟩ <;>
    cases p <;> first | rfl | exact absurd rfl hp

/-- C3 witness: under SpinLock policy, `read_lock()` throws. -/
theorem C3_read_side_policy_errors_witness :
    ∃ e : LogicError, (LockGuard.construct LockPolicy.SpinLock).read_lock
      = Except.error e :=
  (C3_read_side_policy_errors LockPolicy.SpinLock (by decide)).1

/-- C4: `acquire_read_lock()` equals `acquire_write_lock()` for every policy
other than ReadWrite, and under ReadWrite it returns the lock holder's
`read_lock()` shared-mode lock. -/
theorem C4_acquire_read_eq_write_except_rw :
    (∀ (p : LockPolicy), p ≠ LockPolicy.ReadWrite → ∀ (lg : LockGuard),
      container_mixin.acquire_read_lock p lg = container_mixin.acquire_write_lock p lg)
    ∧ (∀ lg : LockGuard, container_mixin.acquire_read_lock LockPolicy.ReadWrite lg
        = (lg.read_lock).map (fun r => (AcquiredGuard.rwShared, r.2)))
    ∧ container_mixin.acquire_read_lock LockPolicy.ReadWrite
        (LockGuard.construct LockPolicy.ReadWrite)
        = Except.ok (AcquiredGuard.rwShared, [LockEvent.rwSharedAcq]) := by
  refine ⟨fun p hp lg => ?_, fun _ => rfl, rfl⟩
  cases p <;> first | rfl | exact absurd rfl hp

/-- C4 witness: under Mutex policy the two acquisition paths coincide. -/
theorem C4_acquire_read_eq_write_except_rw_witness :
    container_mixin.acquire_read_lock LockPolicy.Mutex
        (LockGuard.construct LockPolicy.Mutex)
      = container_mixin.acquire_write_lock LockPolicy.Mutex
        (LockGuard.construct LockPolicy.Mutex) :=
  C4_acquire_read_eq_write_except_rw.1 LockPolicy.Mutex (by decide)
    (LockGuard.construct LockPolicy.Mutex)

/-- C5: constructing a `UnifiedLockGuard` from the spin primitive immediately
acquires it; the destructor unlocks the spin primitive exactly when the spin
tag (1, with a stored pointer) is the active payload, and a moved-from
(tag -1) guard's destructor releases nothing. -/
theorem C5_spin_guard_ctor_dtor (g : UnifiedLockGuard) (h : g.WF) :
    UnifiedLockGuard.ofSpin.2 = [LockEvent.spinLockAcq]
    ∧ UnifiedLockGuard.ofSpin.1.lock_type = 1
    ∧ UnifiedLockGuard.ofSpin.1.dtorEvents = [LockEvent.spinUnlock]
    ∧ (LockEvent.spinUnlock ∈ g.dtorEvents ↔ (g.lock_type = 1 ∧ g.spinlock = true))
    ∧ (g.lock_type = -1 → g.dtorEvents = []) :=
  ⟨rfl, rfl, rfl, UnifiedLockGuard.spinUnlock_mem_dtorEvents g,
    UnifiedLockGuard.dtorEvents_of_moved_from g h⟩

/-- C5 witness: instantiated at the moved-from source of a spin guard. -/
theorem C5_spin_guard_ctor_dtor_witness :
    (UnifiedLockGuard.moveCtor UnifiedLockGuard.ofSpin.1).2.dtorEvents = [] :=
  (C5_spin_guard_ctor_dtor (UnifiedLockGuard.moveCtor UnifiedLockGuard.ofSpin.1).2
    (by decide)).2.2.2.2 (by decide)

/-- C6: `try_lock()` makes exactly one non-blocking attempt: it succeeds iff
the flag was free, leaves the flag set on success (the same free-to-locked
transition `lock()` performs, which completes in one loop iteration from the
free state and keeps spinning from the locked state), and leaves the state
unchanged on failure. -/
theorem C6_try_lock_single_attempt (flag : Bool) :
    ((SpinLock.try_lock flag).1 = true ↔ flag = false)
    ∧ ((SpinLock.try_lock flag).1 = false → (SpinLock.try_lock flag).2 = flag)
    ∧ (flag = false → SpinLock.lockLoop 1 flag = some (SpinLock.try_lock flag).2)
    ∧ (flag = true → SpinLock.lockLoop 1 flag = none) := by
  cases flag <;>
    simp [SpinLock.try_lock, SpinLock.test_and_set, SpinLock.lockLoop]

/-- C6 witness: a free flag is acquired; a set flag is left unchanged. -/
theorem C6_try_lock_single_attempt_witness :
    (SpinLock.try_lock false).1 = true ∧ (SpinLock.try_lock true).2 = true :=
  ⟨(C6_try_lock_single_attempt false).1.mpr rfl,
    (C6_try_lock_single_attempt true).2.1 (by decide)⟩

/-- C7: constructing a `LockGuard` allocates exactly the one primitive slot
matching the policy (mutex for Mutex, spin primitive for SpinLock, shared
mutex for ReadWrite, none for LockFree), and `policy()` returns the
constructor argument. -/
theorem C7_construct_allocates_matching (p : LockPolicy) :
    (LockGuard.construct p).policy = p
    ∧ ((LockGuard.construct p).mutex_ = true ↔ p = LockPolicy.Mutex)
    ∧ ((LockGuard.construct p).spinlock_ = true ↔ p = LockPolicy.SpinLock)
    ∧ ((LockGuard.construct p).shared_mutex_ = true ↔ p = LockPolicy.ReadWrite)
    ∧ (p = LockPolicy.LockFree →
        (LockGuard.construct p).mutex_ = false
          ∧ (LockGuard.construct p).spinlock_ = false
          ∧ (LockGuard.construct p).shared_mutex_ = false) := by
  cases p <;> simp [LockGuard.construct, LockGuard.policy]

/-- C7 witness: instantiated at LockFree — no slot is allocated. -/
theorem C7_construct_allocates_matching_witness :
    (LockGuard.construct LockPolicy.LockFree).mutex_ = false
      ∧ (LockGuard.construct LockPolicy.LockFree).spinlock_ = false
      ∧ (LockGuard.construct LockPolicy.LockFree).shared_mutex_ = false :=
  (C7_construct_allocates_matching LockPolicy.LockFree).2.2.2.2 rfl

/-- C8: the generic query helpers run bracketed by a read-lock acquisition
and its release, leave the container unchanged, and compute the reference
results: `contains` is membership, `count` is the number of equal elements,
`copy` is the container's contents. -/
theorem C8_query_helpers (T : Type) [DecidableEq T] (p : LockPolicy)
    (m : container_mixin T) (v : T)
    (h : m.lock_guard_ = LockGuard.construct p) :
    ∃ (g : AcquiredGuard) (ev : List LockEvent),
      container_mixin.acquire_read_lock p m.lock_guard_ = Except.ok (g, ev)
      ∧ (∃ b : Bool, container_mixin.contains p m v
            = Except.ok (b, ev ++ g.releaseEvents, m)
          ∧ (b = true ↔ v ∈ m.data_))
      ∧ container_mixin.count p m v
          = Except.ok ((m.data_.filter (fun x => decide (x = v))).length,
              ev ++ g.releaseEvents, m)
      ∧ container_mixin.copy p m
          = Except.ok (m.data_, ev ++ g.releaseEvents, m) := by
  obtain ⟨g, ev, hok⟩ := container_mixin.acquire_read_lock_construct_ok p
  rw [← h] at hok
  refine ⟨g, ev, hok,
    ⟨(m.data_.find? (fun x => decide (x = v))).isSome, ?_, ?_⟩, ?_, ?_⟩
  · simp [container_mixin.contains, hok, Except.map]
  · simp only [List.find?_isSome]
    constructor
    · rintro ⟨x, hx, hxv⟩
      exact (of_decide_eq_true hxv) ▸ hx
    · intro hv
      exact ⟨v, hv, by simp⟩
  · simp [container_mixin.count, hok, Except.map, List.countP_eq_length_filter]
  · simp [container_mixin.copy, hok, Except.map]

/-- C8 witness: instantiated under Mutex policy on the container `[1, 2]`. -/
theorem C8_query_helpers_witness :
    ∃ (g : AcquiredGuard) (ev : List LockEvent),
      container_mixin.acquire_read_lock LockPolicy.Mutex
          (container_mixin.mk (LockGuard.construct LockPolicy.Mutex) [1, 2]).lock_guard_
        = Except.ok (g, ev)
      ∧ (∃ b : Bool, container_mixin.contains LockPolicy.Mutex
            (container_mixin.mk (LockGuard.construct LockPolicy.Mutex) [1, 2]) 2
            = Except.ok (b, ev ++ g.releaseEvents,
                container_mixin.mk (LockGuard.construct LockPolicy.Mutex) [1, 2])
          ∧ (b = true ↔ 2 ∈ (container_mixin.mk
                (LockGuard.construct LockPolicy.Mutex) [(1 : Nat), 2]).data_))
      ∧ container_mixin.count LockPolicy.Mutex
          (container_mixin.mk (LockGuard.construct LockPolicy.Mutex) [1, 2]) 2
          = Except.ok (((container_mixin.mk (LockGuard.construct LockPolicy.Mutex)
                [(1 : Nat), 2]).data_.filter (fun x => decide (x = 2))).length,
              ev ++ g.releaseEvents,
              container_mixin.mk (LockGuard.construct LockPolicy.Mutex) [1, 2])
      ∧ container_mixin.copy LockPolicy.Mutex
          (container_mixin.mk (LockGuard.construct LockPolicy.Mutex) [1, 2])
          = Except.ok ([(1 : Nat), 2], ev ++ g.releaseEvents,
              container_mixin.mk (LockGuard.construct LockPolicy.Mutex) [1, 2]) :=
  C8_query_helpers Nat LockPolicy.Mutex
    (container_mixin.mk (LockGuard.construct LockPolicy.Mutex) [1, 2]) 2 rfl

/-- C9: the escape-hatch helpers return the underlying container's size,
emptiness, and the container itself, perform no lock events, and leave the
state unchanged. -/
theorem C9_unsafe_helpers (T : Type) (m : container_mixin T) :
    container_mixin.unsafe_size m = (m.data_.length, [], m)
    ∧ container_mixin.unsafe_empty m = (m.data_.isEmpty, [], m)
    ∧ ((container_mixin.unsafe_empty m).1 = true ↔ m.data_ = [])
    ∧ container_mixin.unsafe_ref m = (m.data_, [], m) :=
  ⟨rfl, rfl, by simp [container_mixin.unsafe_empty, List.isEmpty_iff], rfl⟩

/-- C10: under ReadWrite policy, `write_lock()` and `lock()` always throw the
logic error, for every lock holder whose stored policy is ReadWrite;
`acquire_write_lock()` under ReadWrite routes to `unique_lock_rw()` (and
succeeds), so it never calls `write_lock()`. -/
theorem C10_write_lock_throws_under_rw :
    (∀ lg : LockGuard, lg.policy_ = LockPolicy.ReadWrite →
      lg.write_lock = Except.error ⟨"Cannot acquire write_lock on ReadWrite policy"⟩
        ∧ lg.lock = Except.error ⟨"Cannot acquire write_lock on ReadWrite policy"⟩)
    ∧ (∀ lg : LockGuard, container_mixin.acquire_write_lock LockPolicy.ReadWrite lg
        = (lg.unique_lock_rw).map (fun r => (AcquiredGuard.rwUnique, r.2)))
    ∧ container_mixin.acquire_write_lock LockPolicy.ReadWrite
        (LockGuard.construct LockPolicy.ReadWrite)
        = Except.ok (AcquiredGuard.rwUnique, [LockEvent.rwUniqueAcq]) := by
  refine ⟨fun lg hlg => ?_, fun _ => rfl, rfl⟩
  have : lg.write_lock
      = Except.error ⟨"Cannot acquire write_lock on ReadWrite policy"⟩ := by
    simp [LockGuard.write_lock, hlg]
  exact ⟨this, this⟩

/-- C10 witness: the ReadWrite-policy lock holder's `write_lock()` throws. -/
theorem C10_write_lock_throws_under_rw_witness :
    (LockGuard.construct LockPolicy.ReadWrite).write_lock
      = Except.error ⟨"Cannot acquire write_lock on ReadWrite policy"⟩ :=
  (C10_write_lock_throws_under_rw.1 (LockGuard.construct LockPolicy.ReadWrite)
    (LockGuard.construct_policy LockPolicy.ReadWrite)).1

end TsStl
